import Mathlib

/-!
Verification development for the Perkle benefit-state engine
(backend/app/services/benefit_periods.py, benefit_detector.py,
notifications.py, and backend/app/api/auth.py).

Embedding conventions:
* Python `datetime.date` is a civil date `(year, month, day)`; validity follows
  Python (`1 <= year <= 9999`, real month/day).  `date(...)` construction is
  `pyDate` returning `Except` (`ValueError` on invalid input); `relativedelta`
  and `timedelta` arithmetic is `addMonths` / `addYears` / `prevDay`
  (`OverflowError` when the result leaves the supported year range).
  `dateutil.relativedelta` clamps the day to the target month.
* Monetary amounts (SQLAlchemy `Float` columns) are modelled as integers; every
  scenario in the repository and spec uses whole dollars, and float rounding is
  not the subject of any claim.
* Database sessions are passed explicitly: each service function takes a `Db`
  value and returns the updated `Db`; fallible Python code returns
  `Except PyError`.
* Wall-clock reads (`date.today()`, `datetime.utcnow()`) are supplied as
  parameters (`today`), and the `utcnow` timestamp strings written into
  `completed_at` are a fixed placeholder, since no claim inspects them.
-/

/-- Kinds of Python exceptions the embedded code can raise. -/
inductive PyError where
  | valueError
  | overflowError
  | attributeError
  | typeError (msg : String)
deriving DecidableEq, Repr

/-- A civil date, mirroring Python `datetime.date` fields. -/
structure Date where
  year : Int
  month : Nat
  day : Nat
deriving DecidableEq, Repr

/-- Gregorian leap-year rule (Python `calendar.isleap`). -/
def isLeap (y : Int) : Bool :=
  y % 4 == 0 && (y % 100 != 0 || y % 400 == 0)

/-- Number of days in a month of a given year. -/
def daysInMonth (y : Int) (m : Nat) : Nat :=
  if m == 2 then (if isLeap y then 29 else 28)
  else if m == 4 || m == 6 || m == 9 || m == 11 then 30
  else 31

/-- Validity of a `(year, month, day)` triple as a Python `datetime.date`. -/
def validDate (y : Int) (m d : Nat) : Bool :=
  1 ≤ y && y ≤ 9999 && 1 ≤ m && m ≤ 12 && 1 ≤ d && d ≤ daysInMonth y m

/-- A `Date` whose fields form a real Python date. -/
def Date.Valid (dt : Date) : Prop := validDate dt.year dt.month dt.day = true

instance (dt : Date) : Decidable dt.Valid :=
  inferInstanceAs (Decidable (validDate dt.year dt.month dt.day = true))

/-- Python `date(y, m, d)` constructor: `ValueError` on invalid input. -/
def pyDate (y : Int) (m d : Nat) : Except PyError Date :=
  if validDate y m d then .ok ⟨y, m, d⟩ else .error .valueError

/-- Python date comparison `a <= b` (lexicographic on year, month, day). -/
def dateLe (a b : Date) : Bool :=
  a.year < b.year ||
    (a.year == b.year && (a.month < b.month ||
      (a.month == b.month && a.day ≤ b.day)))

/-- Python date comparison `a < b`. -/
def dateLt (a b : Date) : Bool :=
  a.year < b.year ||
    (a.year == b.year && (a.month < b.month ||
      (a.month == b.month && a.day < b.day)))

/-- Clamp a day-of-month into the target month (the `dateutil.relativedelta`
convention for month/year arithmetic). -/
def clampDay (y : Int) (m d : Nat) : Nat := min d (daysInMonth y m)

/-- Total month-shift with day clamping: value computed by
`dt + relativedelta(months=n)` when it is in range. -/
def shiftMonths (dt : Date) (n : Nat) : Date :=
  let tm := (dt.month - 1) + n
  let y := dt.year + (tm / 12 : Nat)
  let m := tm % 12 + 1
  ⟨y, m, clampDay y m dt.day⟩

/-- Total year-shift with day clamping (Feb 29 becomes Feb 28 in non-leap
years): value computed by `dt + relativedelta(years=n)` when in range. -/
def shiftYears (dt : Date) (n : Int) : Date :=
  ⟨dt.year + n, dt.month, clampDay (dt.year + n) dt.month dt.day⟩

/-- Total predecessor: value computed by `dt - timedelta(days=1)`. -/
def dayBefore (dt : Date) : Date :=
  if 1 < dt.day then ⟨dt.year, dt.month, dt.day - 1⟩
  else if 1 < dt.month then ⟨dt.year, dt.month - 1, daysInMonth dt.year (dt.month - 1)⟩
  else ⟨dt.year - 1, 12, 31⟩

/-- Python `dt + relativedelta(months=n)`: `OverflowError` when the result
year leaves `1..9999`. -/
def addMonths (dt : Date) (n : Nat) : Except PyError Date :=
  if 1 ≤ (shiftMonths dt n).year && (shiftMonths dt n).year ≤ 9999 then
    .ok (shiftMonths dt n)
  else .error .overflowError

/-- Python `dt + relativedelta(years=n)`: `OverflowError` when out of range. -/
def addYears (dt : Date) (n : Int) : Except PyError Date :=
  if 1 ≤ dt.year + n && dt.year + n ≤ 9999 then .ok (shiftYears dt n)
  else .error .overflowError

/-- Python `dt - timedelta(days=1)`: `OverflowError` below `date.min`. -/
def prevDay (dt : Date) : Except PyError Date :=
  if dt.year == 1 && dt.month == 1 && dt.day == 1 then .error .overflowError
  else .ok (dayBefore dt)

/-- Embedding of `get_period_boundaries`
(`backend/app/services/benefit_periods.py`, lines 6-89).  Optional Python
arguments are passed explicitly; the defaults at the call sites of this
development are `card_anniversary = none`, `reset_type = none`,
`reset_years = 4`, `last_used_date = none`. -/
def get_period_boundaries (cadence : String) (reference_date : Date)
    (card_anniversary : Option Date) (reset_type : Option String)
    (reset_years : Nat) (last_used_date : Option Date) :
    Except PyError (Date × Date) :=
  if cadence == "monthly" then do
    let start : Date := ⟨reference_date.year, reference_date.month, 1⟩
    let m1 ← addMonths start 1
    let e ← prevDay m1
    return (start, e)
  else if cadence == "quarterly" then do
    let quarter := (reference_date.month - 1) / 3
    let start_month := quarter * 3 + 1
    let start ← pyDate reference_date.year start_month 1
    let m3 ← addMonths start 3
    let e ← prevDay m3
    return (start, e)
  else if cadence == "semi-annual" then
    if reference_date.month ≤ 6 then do
      let s ← pyDate reference_date.year 1 1
      let e ← pyDate reference_date.year 6 30
      return (s, e)
    else do
      let s ← pyDate reference_date.year 7 1
      let e ← pyDate reference_date.year 12 31
      return (s, e)
  else if cadence == "annual" then
    match reset_type, card_anniversary with
    | some "cardmember_year", some a => do
      let anniv_this_year ← pyDate reference_date.year a.month a.day
      if dateLe anniv_this_year reference_date then do
        let y1 ← addYears anniv_this_year 1
        let e ← prevDay y1
        return (anniv_this_year, e)
      else do
        let s ← addYears anniv_this_year (-1)
        let e ← prevDay anniv_this_year
        return (s, e)
    | _, _ => do
      let s ← pyDate reference_date.year 1 1
      let e ← pyDate reference_date.year 12 31
      return (s, e)
  else if cadence == "rolling" then
    match last_used_date with
    | some lu => do
      let y ← addYears lu (reset_years : Int)
      let e ← prevDay y
      return (lu, e)
    | none => do
      let s ← pyDate (reference_date.year - (reset_years : Int))
        reference_date.month reference_date.day
      let e ← pyDate (reference_date.year + (reset_years : Int))
        reference_date.month reference_date.day
      return (s, e)
  else if cadence == "one-time" then do
    let s ← pyDate (reference_date.year - 4) 1 1
    let e ← pyDate (reference_date.year + 4) 12 31
    return (s, e)
  else if cadence == "per-booking" then
    return (reference_date, reference_date)
  else
    .error .valueError

/-! ### Date and string conversions -/

/-- Digit test on a character. -/
def isDig (c : Char) : Bool := 48 ≤ c.toNat && c.toNat ≤ 57

/-- Numeric value of a digit character. -/
def digVal (c : Char) : Nat := c.toNat - 48

/-- Embedding of `_parse_transaction_date` / `strptime(s, "%Y-%m-%d")` on the
canonical zero-padded form the repository stores (`YYYY-MM-DD`); returns
`none` when parsing fails (the Python helper catches `ValueError`). -/
def parseDateIso (s : String) : Option Date :=
  match s.data with
  | [y1, y2, y3, y4, h1, m1, m2, h2, d1, d2] =>
    if isDig y1 && isDig y2 && isDig y3 && isDig y4 && h1 == '-' &&
        isDig m1 && isDig m2 && h2 == '-' && isDig d1 && isDig d2 then
      let y : Int := (((digVal y1 * 10 + digVal y2) * 10 + digVal y3) * 10 + digVal y4 : Nat)
      let m := digVal m1 * 10 + digVal m2
      let d := digVal d1 * 10 + digVal d2
      if validDate y m d then some ⟨y, m, d⟩ else none
    else none
  | _ => none

/-- Two-digit zero-padded rendering of a number below 100. -/
def pad2 (n : Nat) : List Char :=
  [Char.ofNat (48 + n / 10 % 10), Char.ofNat (48 + n % 10)]

/-- Four-digit zero-padded rendering of a year. -/
def pad4 (n : Nat) : List Char :=
  [Char.ofNat (48 + n / 1000 % 10), Char.ofNat (48 + n / 100 % 10),
   Char.ofNat (48 + n / 10 % 10), Char.ofNat (48 + n % 10)]

/-- Python `date.isoformat()`: the canonical `YYYY-MM-DD` string. -/
def Date.iso (dt : Date) : String :=
  ⟨pad4 dt.year.toNat ++ '-' :: pad2 dt.month ++ '-' :: pad2 dt.day⟩

/-- Rata-die style day count used to embed `timedelta` subtraction
(`(a - b).days` is `toRD a - toRD b`): days in full years before `y`. -/
def daysBeforeYear (y : Int) : Int :=
  365 * (y - 1) + (y - 1) / 4 - (y - 1) / 100 + (y - 1) / 400

/-- Days in the months of year `y` strictly before month `m`. -/
def daysBeforeMonth (y : Int) : Nat → Nat
  | 0 => 0
  | 1 => 0
  | m + 1 => daysBeforeMonth y m + daysInMonth y m

/-- Absolute day number of a date. -/
def toRD (dt : Date) : Int :=
  daysBeforeYear dt.year + (daysBeforeMonth dt.year dt.month : Nat) + (dt.day : Int)

/-- Python `(a - b).days` on dates. -/
def daysDiff (a b : Date) : Int := toRD a - toRD b

/-- Python `int(...)` on a digit string, given as a character list; `none`
models the `ValueError` of a non-numeric string. -/
def digitsToNat? (cs : List Char) : Option Nat :=
  if !cs.isEmpty && cs.all isDig then
    some (cs.foldl (fun acc c => acc * 10 + digVal c) 0)
  else none

/-- Embedding of `parse_anniversary_to_date`
(`benefit_detector.py`, lines 14-29).  Python returns `None` for the empty
string and for strings that are neither 10 nor 5 characters long; a malformed
ten-character string or an invalid month/day (such as Feb 29 in a non-leap
reference year) raises `ValueError`.  For a five-character string the code
takes `int(s[:2])` and `int(s[3:])` — the separator character is never
inspected. -/
def parse_anniversary_to_date (anniversary_str : String) (reference_date : Date) :
    Except PyError (Option Date) :=
  if anniversary_str == "" then .ok none
  else if anniversary_str.length == 10 then
    match parseDateIso anniversary_str with
    | some dt => .ok (some dt)
    | none => .error .valueError
  else if anniversary_str.length == 5 then
    match anniversary_str.data with
    | [m1, m2, _, d1, d2] =>
      match digitsToNat? [m1, m2], digitsToNat? [d1, d2] with
      | some month, some day =>
        (match pyDate reference_date.year month day with
         | .ok dt => .ok (some dt)
         | .error e => .error e)
      | _, _ => .error .valueError
    | _ => .error .valueError
  else .ok none

/-- Anniversary resolution as done at the top of `detect_benefits_for_user`
(lines 62-68) and `get_benefit_status_for_user` (lines 272-278): the parse is
wrapped in `try: ... except ValueError: pass`, so a raising parse leaves the
card with no anniversary. -/
def resolve_card_anniversary (card_anniversary : Option String) (today : Date) :
    Option Date :=
  match card_anniversary with
  | none => none
  | some s =>
    match parse_anniversary_to_date s today with
    | .ok d => d
    | .error _ => none

/-! ### Pattern matching -/

/-- Leading-segment equality of character lists (the needle as a prefix test). -/
def leadEq : List Char → List Char → Bool
  | [], _ => true
  | _ :: _, [] => false
  | a :: as, b :: bs => a == b && leadEq as bs

/-- Contiguous-substring test on character lists (Python `needle in hay`;
an empty needle matches). -/
def containsSub (needle : List Char) : List Char → Bool
  | [] => needle.isEmpty
  | h :: t => leadEq needle (h :: t) || containsSub needle t

/-- ASCII lowercase of a string as a character list (Python `str.lower`). -/
def lowerData (s : String) : List Char := s.data.map Char.toLower

/-- Embedding of `_matches_patterns` (`benefit_detector.py`, lines 140-147):
case-insensitive substring match of any pattern in the text. -/
def matches_patterns (text : String) (patterns : List String) : Bool :=
  patterns.any (fun p => containsSub (lowerData p) (lowerData text))

/-! ### Data model

Rows carry the columns that the embedded service functions read; unread
columns (timestamps, notes, account masks, manual-tracking fields) are
omitted.  Primary keys are numbers instead of UUID strings. -/

/-- A benefit definition from a card config `benefits` JSON array.  Fields the
Python code reads through `dict.get` are `Option`s so the per-call-site
defaults can be applied exactly where the code applies them. -/
structure BenefitDef where
  slug : String
  name : String
  value : Option Int
  cadence : Option String
  reset_type : Option String
  tracking_mode : Option String
  credit_patterns : List String
  notes : Option String
deriving DecidableEq, Repr

/-- `card_configs` row. -/
structure CardConfigRow where
  id : Nat
  slug : String
  name : String
  annual_fee : Int
  benefits_url : Option String
  benefits : List BenefitDef
deriving DecidableEq, Repr

/-- `user_cards` row (`active` is the SQLite 0/1 integer as a `Bool`). -/
structure UserCardRow where
  id : Nat
  user_id : Nat
  card_config_id : Nat
  card_anniversary : Option String
  active : Bool
deriving DecidableEq, Repr

/-- `transactions` row. -/
structure TransactionRow where
  id : Nat
  user_id : Nat
  card_config_id : Option Nat
  date : String
  name : String
  amount : Int
  benefit_slug : Option String
deriving DecidableEq, Repr

/-- `benefit_periods` row (`completed` is the SQLite 0/1 integer as a `Bool`). -/
structure BenefitPeriodRow where
  user_card_id : Nat
  benefit_slug : String
  period_start : String
  period_end : String
  amount_limit : Int
  amount_used : Int
  usage_count : Nat
  completed : Bool
  completed_at : Option String
deriving DecidableEq, Repr

/-- `user_benefit_settings` row. -/
structure UserBenefitSettingsRow where
  user_id : Nat
  user_card_id : Nat
  benefit_slug : String
  muted : Bool
deriving DecidableEq, Repr

/-- The database state the benefit engine touches. -/
structure Db where
  user_cards : List UserCardRow
  card_configs : List CardConfigRow
  transactions : List TransactionRow
  benefit_periods : List BenefitPeriodRow
  settings : List UserBenefitSettingsRow
deriving DecidableEq, Repr

/-- Update the first element satisfying `p` (an ORM mutation of the object
returned by `query(...).first()`). -/
def updateFirst (p : α → Bool) (f : α → α) : List α → List α
  | [] => []
  | x :: t => if p x then f x :: t else x :: updateFirst p f t

/-- Placeholder for `datetime.utcnow().isoformat()`; no claim inspects the
timestamp text. -/
def utcnowIso : String := "utcnow"

/-! ### Detector -/

/-- Row predicate for the `BenefitPeriod` lookup keyed on
`(user_card_id, benefit_slug, period_start)`. -/
def periodKey (user_card_id : Nat) (slug : String) (start_iso : String)
    (p : BenefitPeriodRow) : Bool :=
  p.user_card_id == user_card_id && p.benefit_slug == slug &&
    p.period_start == start_iso

/-- The accumulate mutation of `_record_benefit_usage` (lines 197-205):
add the transaction amount, bump `usage_count`, and set `completed` once
`amount_used` reaches the benefit value. -/
def accumulatePeriod (txn_amount benefit_value : Int) (p : BenefitPeriodRow) :
    BenefitPeriodRow :=
  let used := p.amount_used + txn_amount
  if used ≥ benefit_value && !p.completed then
    { p with
      amount_used := used
      usage_count := p.usage_count + 1
      completed := true
      completed_at := some utcnowIso }
  else
    { p with
      amount_used := used
      usage_count := p.usage_count + 1 }

/-- Embedding of `_record_benefit_usage` (`benefit_detector.py`, lines
158-241).  Returns `true` when a new `BenefitPeriod` was created (the Python
function returns the new row), `false` for an accumulate (it returns `None`).

Notes kept faithful to the source:
* the `if not period_start or not period_end` re-computation (lines 174-183)
  is dead code — the callers always pass `date` objects, and a Python `date`
  is always truthy;
* the session runs with autoflush, so a row `db.add`ed earlier in the run is
  found by the `existing` query; the `created_periods` / `db.new` branch
  (lines 207-222) applies the identical accumulate mutation to such a pending
  row, so pending rows are simply kept in `Db.benefit_periods`;
* the function never reads `transaction.benefit_slug`: there is no
  already-applied short-circuit. -/
def record_benefit_usage (db : Db) (user_card : UserCardRow)
    (benefit : BenefitDef) (transaction : TransactionRow)
    (period_start period_end : Date) : Bool × Db :=
  let txn_amount := |transaction.amount|
  let benefit_value := (benefit.value).getD 0
  let key := periodKey user_card.id benefit.slug period_start.iso
  match db.benefit_periods.find? key with
  | some _ =>
    let ps := updateFirst key (accumulatePeriod txn_amount benefit_value) db.benefit_periods
    (false, { db with benefit_periods := ps })
  | none =>
    let newRow : BenefitPeriodRow :=
      { user_card_id := user_card.id
        benefit_slug := benefit.slug
        period_start := period_start.iso
        period_end := period_end.iso
        amount_limit := benefit_value
        amount_used := txn_amount
        usage_count := 1
        completed := txn_amount ≥ benefit_value
        completed_at := if txn_amount ≥ benefit_value then some utcnowIso else none }
    (true, { db with benefit_periods := db.benefit_periods ++ [newRow] })

/-- One entry of the detector result list. -/
structure DetectedBenefit where
  card : String
  benefit : String
  amount : Int
  date : String
  transaction : String
deriving DecidableEq, Repr

/-- Detector result dict; `benefits = none` models the early-return shape
`(detected, cards_checked)` that has no `benefits` key. -/
structure DetectResult where
  detected : Nat
  cards_checked : Nat
  benefits : Option (List DetectedBenefit)
deriving DecidableEq, Repr

/-- Running state of a detector invocation. -/
structure DetectSt where
  db : Db
  detected : Nat
  found : List DetectedBenefit
deriving Repr

/-- Set `benefit_slug` on the transaction row with the given id
(line 129: `txn.benefit_slug = benefit["slug"]`). -/
def setTxnBenefitSlug (db : Db) (txn_id : Nat) (slug : String) : Db :=
  { db with transactions :=
      db.transactions.map fun t =>
        if t.id == txn_id then { t with benefit_slug := some slug } else t }

/-- Per-transaction step of the detector inner loop (lines 98-129). -/
def detectTxnStep (cc : CardConfigRow) (user_card : UserCardRow)
    (benefit : BenefitDef) (period_start period_end : Date)
    (st : DetectSt) (txn : TransactionRow) : DetectSt :=
  match parseDateIso txn.date with
  | none => st
  | some txn_date =>
    if dateLt txn_date period_start || dateLt period_end txn_date then st
    else if matches_patterns txn.name benefit.credit_patterns then
      let (isNew, db1) :=
        record_benefit_usage st.db user_card benefit txn period_start period_end
      if isNew then
        { db := setTxnBenefitSlug db1 txn.id benefit.slug
          detected := st.detected + 1
          found := st.found ++
            [{ card := cc.name, benefit := benefit.name,
               amount := |txn.amount|, date := txn.date,
               transaction := txn.name }] }
      else { st with db := db1 }
    else st

/-- Per-benefit step of the detector loop (lines 77-129). -/
def detectBenefitStep (cc : CardConfigRow) (user_card : UserCardRow)
    (card_anniversary : Option Date) (today : Date)
    (credits : List TransactionRow) (st : DetectSt) (benefit : BenefitDef) :
    Except PyError DetectSt := do
  if benefit.tracking_mode != some "auto" then return st
  if benefit.credit_patterns.isEmpty then return st
  let cadence := (benefit.cadence).getD "monthly"
  let reset_type := benefit.reset_type
  let effective_anniversary :=
    if reset_type == some "cardmember_year" then card_anniversary else none
  let (period_start, period_end) ←
    get_period_boundaries cadence today effective_anniversary reset_type 4 none
  return credits.foldl (detectTxnStep cc user_card benefit period_start period_end) st

/-- Per-card step of the detector loop (lines 58-129). -/
def detectCardStep (user_id : Nat) (today : Date) (st : DetectSt)
    (user_card : UserCardRow) : Except PyError DetectSt := do
  match st.db.card_configs.find? (fun c => c.id == user_card.card_config_id) with
  | none => .error .attributeError
  | some cc =>
    let card_anniversary := resolve_card_anniversary user_card.card_anniversary today
    let credits := st.db.transactions.filter fun t =>
      t.user_id == user_id && t.card_config_id == some cc.id && t.amount < 0
    cc.benefits.foldlM
      (detectBenefitStep cc user_card card_anniversary today credits) st

/-- Embedding of `detect_benefits_for_user` (`benefit_detector.py`, lines
32-137).  `today` stands for `date.today()`.  The returned `Db` is the state
after `db.commit()`. -/
def detect_benefits_for_user (db : Db) (user_id : Nat) (today : Date) :
    Except PyError (DetectResult × Db) := do
  let user_cards := db.user_cards.filter fun uc =>
    uc.user_id == user_id && uc.active
  if user_cards.isEmpty then
    return ({ detected := 0, cards_checked := 0, benefits := none }, db)
  let cards_checked := user_cards.length
  let st ← user_cards.foldlM (detectCardStep user_id today) ⟨db, 0, []⟩
  return ({ detected := st.detected, cards_checked := cards_checked,
            benefits := some st.found }, st.db)

/-! ### Status projection -/

/-- One benefit record of the status projection (lines 345-360). -/
structure BenefitStatus where
  slug : String
  name : String
  value : Int
  cadence : String
  tracking_mode : String
  reset_type : Option String
  period_start : String
  period_end : String
  days_remaining : Nat
  status : String
  amount_used : Int
  amount_limit : Int
  notes : Option String
  hidden : Bool
deriving DecidableEq, Repr

/-- One card entry of the status projection (lines 290-300). -/
structure CardStatus where
  user_card_id : Nat
  card_name : String
  card_slug : String
  card_anniversary : Option String
  next_renewal_date : Option String
  annual_fee : Int
  benefits_url : Option String
  days_until_renewal : Option Int
  benefits : List BenefitStatus
deriving DecidableEq, Repr

/-- The status derivation of `get_benefit_status_for_user` (lines 330-343),
exactly as the if/elif chain in the source. -/
def derive_status (tracking_mode : String) (period_record : Option BenefitPeriodRow)
    (days_left : Int) : String :=
  if tracking_mode == "info" then "info"
  else if (match period_record with
           | some p => p.completed
           | none => false) then "used"
  else if (match period_record with
           | some p => decide (p.amount_used > 0)
           | none => false) then "partial"
  else if days_left ≤ 0 then "expired"
  else if days_left ≤ 7 then "expiring"
  else "available"

/-- List traversal in `Except`, the shape of a Python for-loop that appends
one element per iteration and can raise. -/
def mapExc (f : α → Except ε β) : List α → Except ε (List β)
  | [] => .ok []
  | x :: t => do
    let y ← f x
    let ys ← mapExc f t
    return y :: ys

/-- Membership in a muted-settings list (the `hidden_map` of lines 262-266). -/
def isHidden (hid : List UserBenefitSettingsRow) (user_card_id : Nat)
    (slug : String) : Bool :=
  hid.any fun s => s.user_card_id == user_card_id && s.benefit_slug == slug

/-- One benefit record of the projection loop body (lines 302-360). -/
def benefitRecordOf (db : Db) (today : Date) (user_card : UserCardRow)
    (card_anniversary : Option Date) (hid : List UserBenefitSettingsRow)
    (benefit : BenefitDef) : Except PyError BenefitStatus := do
  let tracking_mode := (benefit.tracking_mode).getD "manual"
  let cadence := (benefit.cadence).getD "monthly"
  let reset_type := benefit.reset_type
  let effective_anniversary :=
    if reset_type == some "cardmember_year" then card_anniversary else none
  let (period_start, period_end) ←
    get_period_boundaries cadence today effective_anniversary reset_type 4 none
  let period_record := db.benefit_periods.find?
    (periodKey user_card.id benefit.slug period_start.iso)
  let days_left := daysDiff period_end today
  return {
      slug := benefit.slug
      name := benefit.name
      value := (benefit.value).getD 0
      cadence := cadence
      tracking_mode := tracking_mode
      reset_type := reset_type
      period_start := period_start.iso
      period_end := period_end.iso
      days_remaining := (max 0 days_left).toNat
      status := derive_status tracking_mode period_record days_left
      amount_used := (period_record.map (fun p => p.amount_used)).getD 0
      amount_limit := (benefit.value).getD 0
      notes := benefit.notes
      hidden := isHidden hid user_card.id benefit.slug }

/-- The `days_until_renewal` / `next_renewal_date` computation of the status
projection (lines 280-288): the next anniversary occurrence strictly after
today, via `date(today.year, anniversary.month, anniversary.day)`, which can
raise. -/
def renewalInfo (today : Date) (card_anniversary : Option Date) :
    Except PyError (Option Int × Option String) :=
  match card_anniversary with
  | none => pure ((none : Option Int), (none : Option String))
  | some ann => do
    let na ← pyDate today.year ann.month ann.day
    let na ← if dateLe na today then pyDate (today.year + 1) ann.month ann.day
             else pure na
    pure (some (daysDiff na today), some na.iso)

/-- Per-card body of the status projection (lines 268-362); the
hidden-benefit `continue` (lines 303-306) is the pre-filter. -/
def cardStatusOf (db : Db) (today : Date) (include_hidden : Bool)
    (hid : List UserBenefitSettingsRow) (user_card : UserCardRow) :
    Except PyError CardStatus := do
  match db.card_configs.find? (fun c => c.id == user_card.card_config_id) with
  | none => .error .attributeError
  | some cc =>
    let card_anniversary := resolve_card_anniversary user_card.card_anniversary today
    let (days_until_renewal, next_renewal_date) ←
      renewalInfo today card_anniversary
    let shown := cc.benefits.filter fun b =>
      !(isHidden hid user_card.id b.slug) || include_hidden
    let recs ← mapExc (benefitRecordOf db today user_card card_anniversary hid) shown
    return {
        user_card_id := user_card.id
        card_name := cc.name
        card_slug := cc.slug
        card_anniversary := user_card.card_anniversary
        next_renewal_date := next_renewal_date
        annual_fee := cc.annual_fee
        benefits_url := cc.benefits_url
        days_until_renewal := days_until_renewal
        benefits := recs }

/-- Embedding of `get_benefit_status_for_user` (`benefit_detector.py`, lines
244-364).  The session is threaded through so that the frame property — the
source performs no `db.add`, attribute write, or `db.commit` — is visible in
the returned state. -/
def get_benefit_status_for_user (db : Db) (user_id : Nat)
    (include_hidden : Bool) (today : Date) :
    Except PyError (List CardStatus × Db) := do
  let user_cards := db.user_cards.filter fun uc =>
    uc.user_id == user_id && uc.active
  let hid := db.settings.filter fun s => s.user_id == user_id && s.muted
  let result ← mapExc (cardStatusOf db today include_hidden hid) user_cards
  return (result, db)

/-! ### Weekly digest (`backend/app/services/notifications.py`)

The two selector functions call
`get_benefit_status_for_user(db, user_id, include_muted=...)` (lines 23 and
51), but the callee signature is
`get_benefit_status_for_user(db, user_id, include_hidden=False)`
(`benefit_detector.py`, line 244-247).  In Python an unexpected keyword
argument raises `TypeError` at the call, before any of the selector body
runs, so both selectors raise unconditionally. -/

/-- `users` row fields read by the digest (`settings` is the parsed
`email_notifications` JSON value; `none` models an absent key, whose
`dict.get` default is `True`). -/
structure UserRow where
  id : Nat
  username : String
  email : String
  email_notifications : Option Bool
deriving DecidableEq, Repr

/-- One entry of the expiring-benefits list (lines 33-40); never produced by
the code as written. -/
structure ExpiringBenefit where
  card_name : String
  benefit_name : String
  value : Int
  amount_used : Int
  days_remaining : Nat
  period_end : String
deriving DecidableEq, Repr

/-- One entry of the upcoming-renewals list (lines 56-61); never produced by
the code as written. -/
structure UpcomingRenewal where
  card_name : String
  annual_fee : Int
  days_until_renewal : Int
  anniversary : Option String
deriving DecidableEq, Repr

/-- The `TypeError` raised by passing keyword `include_muted` to
`get_benefit_status_for_user`. -/
def includeMutedTypeError : PyError :=
  .typeError "get_benefit_status_for_user got an unexpected keyword argument include_muted"

/-- Embedding of `get_expiring_benefits_for_user` (lines 17-42): the first
statement is the keyword-mismatched call, so the function raises before its
filtering loop can run. -/
def get_expiring_benefits_for_user (db : Db) (user_id : Nat)
    (days_threshold : Nat) : Except PyError (List ExpiringBenefit) :=
  .error includeMutedTypeError

/-- Embedding of `get_upcoming_renewals` (lines 45-63): same keyword
mismatch, same unconditional raise. -/
def get_upcoming_renewals (db : Db) (user_id : Nat) (days_threshold : Nat) :
    Except PyError (List UpcomingRenewal) :=
  .error includeMutedTypeError

/-- Whether `send_email_notification` (lines 92-139) reports success; the
SMTP transport is external, so it is abstracted to its configuration flag
(`SMTP_HOST` unset returns `False`). -/
def send_email_notification (smtp_configured : Bool) : Bool := smtp_configured

/-- Embedding of `send_weekly_digest_for_user` (lines 205-229).
`smtp_configured` stands for the SMTP environment variables. -/
def send_weekly_digest_for_user (db : Db) (smtp_configured : Bool)
    (user : UserRow) : Except PyError Bool := do
  if !(user.email_notifications.getD true) then return false
  let expiring ← get_expiring_benefits_for_user db user.id 7
  let renewals ← get_upcoming_renewals db user.id 30
  if expiring.isEmpty && renewals.isEmpty then return false
  return send_email_notification smtp_configured

/-! ### Refresh-session rotation (`backend/app/api/auth.py`)

The model keeps the session store, the user table, and the wall clock in one
state.  JWT signing is abstracted: a token value carries the claims
`(sub, jti, type)`, and every token term presented to `refresh_tokens` stands
for a correctly signed token (forging signatures is outside the model).
`hashlib.sha256` in `hash_token_id` is modelled as an injective map on token
identifiers (the identity), and `jti = str(uuid.uuid4())` freshness is
modelled by a counter: newly issued identifiers are strictly larger than any
identifier already in the store. -/

/-- `refresh_sessions` row (`revoked_at` and `last_used_at` are timestamps,
`none` meaning NULL). -/
structure RefreshSessionRow where
  id : Nat
  user_id : Nat
  jti_hash : Nat
  expires_at : Nat
  revoked_at : Option Nat
  last_used_at : Option Nat
  rotated_from_id : Option Nat
deriving DecidableEq, Repr

/-- Auth state: session store, users, fresh-identifier counter, clock. -/
structure AuthDb where
  sessions : List RefreshSessionRow
  users : List Nat
  next_id : Nat
  next_jti : Nat
  now : Nat
deriving DecidableEq, Repr

/-- Claims carried by a (validly signed) refresh JWT. -/
structure RefreshToken where
  sub : Nat
  jti : Nat
  typ : String
deriving DecidableEq, Repr

/-- `hash_token_id` (auth.py, lines 59-61): sha256 as an injective map. -/
def hash_token_id (jti : Nat) : Nat := jti

/-- `settings.refresh_token_expire_days` default. -/
def refreshExpireDays : Nat := 7

/-- Session lookup predicate of `refresh_tokens` (lines 235-238). -/
def sessionMatch (user_id jtiHash : Nat) (s : RefreshSessionRow) : Bool :=
  s.user_id == user_id && s.jti_hash == jtiHash

/-- Mark a session revoked (lines 270-272: `session.revoked_at = now;
session.last_used_at = now` on the object `.first()` returned). -/
def markRevoked (now : Nat) (s : RefreshSessionRow) : RefreshSessionRow :=
  { s with revoked_at := some now, last_used_at := some now }

/-- The session row persisted by `create_refresh_session` (lines 108-116). -/
def newSessionRow (st : AuthDb) (user_id : Nat) (rotated_from_id : Option Nat) :
    RefreshSessionRow :=
  { id := st.next_id
    user_id := user_id
    jti_hash := hash_token_id st.next_jti
    expires_at := st.now + refreshExpireDays
    revoked_at := none
    last_used_at := none
    rotated_from_id := rotated_from_id }

/-- `create_refresh_session` (lines 98-120): persist a new session row and
mint the paired token. -/
def create_refresh_session (st : AuthDb) (user_id : Nat)
    (rotated_from_id : Option Nat) : AuthDb × RefreshToken :=
  ({ st with
      sessions := st.sessions ++ [newSessionRow st user_id rotated_from_id]
      next_id := st.next_id + 1
      next_jti := st.next_jti + 1 },
   { sub := user_id, jti := st.next_jti, typ := "refresh" })

/-- The state after `session.revoked_at = now; session.last_used_at = now`
(lines 270-272): the first session matching the lookup key is marked. -/
def revokedState (st : AuthDb) (tok : RefreshToken) : AuthDb :=
  { st with
      sessions := updateFirst (sessionMatch tok.sub (hash_token_id tok.jti))
        (markRevoked st.now) st.sessions }

/-- Embedding of the `refresh_tokens` endpoint (auth.py, lines 195-280); the
error value is the HTTP status 401.  On success the old session is revoked
and the new one inserted in the same returned state (one transaction: the
`db.commit()` at line 277 covers both writes). -/
def refresh_tokens (st : AuthDb) (tok : RefreshToken) : Except Nat (AuthDb × RefreshToken) :=
  if tok.typ != "refresh" then .error 401
  else
    match st.sessions.find? (sessionMatch tok.sub (hash_token_id tok.jti)) with
    | none => .error 401
    | some session =>
      if session.revoked_at.isSome then .error 401
      else if session.expires_at ≤ st.now then .error 401
      else if !(st.users.contains tok.sub) then .error 401
      else
        let (st2, newTok) := create_refresh_session
          (revokedState st tok) tok.sub (some session.id)
        .ok (st2, newTok)

/-- Freshness invariant for the jti counter: every stored hash is below the
counter (uuid4 collisions are outside the model). -/
def JtiFresh (st : AuthDb) : Prop :=
  ∀ s ∈ st.sessions, s.jti_hash < st.next_jti

instance (st : AuthDb) : Decidable (JtiFresh st) :=
  inferInstanceAs (Decidable (∀ s ∈ st.sessions, s.jti_hash < st.next_jti))

/-! ### Concrete fixtures

The detector scenario of `backend/tests/test_benefit_detector.py`
(`test_detect_benefits_does_not_reapply_same_transaction`), with
`date.today()` pinned to 2025-03-10. -/

/-- The Dining Credit benefit definition of the repository test. -/
def benefitDining : BenefitDef :=
  { slug := "dining-credit"
    name := "Dining Credit"
    value := some 50
    cadence := some "monthly"
    reset_type := some "calendar_year"
    tracking_mode := some "auto"
    credit_patterns := ["Dining Credit"]
    notes := none }

/-- The Test Card catalog entry of the repository test. -/
def cardConfigTest : CardConfigRow :=
  { id := 1
    slug := "test-card"
    name := "Test Card"
    annual_fee := 0
    benefits_url := some "https://example.com/benefits"
    benefits := [benefitDining] }

/-- The user card of the repository test. -/
def userCardTest : UserCardRow :=
  { id := 1, user_id := 1, card_config_id := 1,
    card_anniversary := none, active := true }

/-- The 20-dollar dining credit transaction of the repository test. -/
def txnDining : TransactionRow :=
  { id := 1, user_id := 1, card_config_id := some 1,
    date := "2025-03-10", name := "Dining Credit - Test Merchant",
    amount := -20, benefit_slug := none }

/-- Database state of the repository test before detection. -/
def dbTest : Db := ⟨[userCardTest], [cardConfigTest], [txnDining], [], []⟩

/-- The pinned `date.today()`. -/
def todayTest : Date := ⟨2025, 3, 10⟩

/-- A 70-dollar credit against the 50-dollar limit (for the clamping claim). -/
def txnOverLimit : TransactionRow := { txnDining with amount := -70 }

/-- Database state with the over-limit credit. -/
def dbOverLimit : Db := { dbTest with transactions := [txnOverLimit] }

/-- A digest recipient with default (enabled) notification settings. -/
def userEnabled : UserRow :=
  { id := 1, username := "tester", email := "tester@example.com",
    email_notifications := none }

/-- A digest recipient who disabled email notifications. -/
def userDisabled : UserRow := { userEnabled with email_notifications := some false }

/-- An auth state with one live refresh session for user 1. -/
def authDbTest : AuthDb :=
  { sessions := [{ id := 0, user_id := 1, jti_hash := hash_token_id 5,
                   expires_at := 100, revoked_at := none, last_used_at := none,
                   rotated_from_id := none }]
    users := [1]
    next_id := 1
    next_jti := 10
    now := 50 }

/-- The refresh token paired with that session. -/
def tokOld : RefreshToken := { sub := 1, jti := 5, typ := "refresh" }

/-! ## Helper lemmas -/

theorem mapExc_mem {α β ε : Type} (f : α → Except ε β) :
    ∀ (xs : List α) (ys : List β), mapExc f xs = .ok ys →
      ∀ y ∈ ys, ∃ x ∈ xs, f x = .ok y := by
  intro xs
  induction xs with
  | nil =>
    intro ys h y hy
    simp only [mapExc] at h
    cases h
    simp at hy
  | cons x t ih =>
    intro ys h y hy
    simp only [mapExc] at h
    cases hx : f x with
    | error e => rw [hx] at h; simp [bind, Except.bind] at h
    | ok b =>
      rw [hx] at h
      cases ht : mapExc f t with
      | error e =>
        rw [ht] at h
        simp [bind, Except.bind, Functor.map, Except.map] at h
      | ok bs =>
        rw [ht] at h
        simp only [bind, Except.bind, Functor.map, Except.map, pure,
          Except.pure, Except.ok.injEq] at h
        subst h
        rcases List.mem_cons.mp hy with hy1 | hy2
        · exact ⟨x, List.mem_cons_self x t, hy1 ▸ hx⟩
        · obtain ⟨x', hx', hfx'⟩ := ih bs ht y hy2
          exact ⟨x', List.mem_cons_of_mem x hx', hfx'⟩

theorem find?_updateFirst {α : Type} (p : α → Bool) (f : α → α)
    (hp : ∀ x, p (f x) = p x) :
    ∀ (l : List α) (x : α), l.find? p = some x →
      (updateFirst p f l).find? p = some (f x) := by
  intro l
  induction l with
  | nil => intro x h; simp [List.find?] at h
  | cons a t ih =>
    intro x h
    by_cases ha : p a = true
    · rw [List.find?_cons_of_pos t ha] at h
      cases h
      simp only [updateFirst, if_pos ha]
      exact List.find?_cons_of_pos t ((hp a).trans ha)
    · rw [List.find?_cons_of_neg t ha] at h
      simp only [updateFirst, if_neg ha]
      rw [List.find?_cons_of_neg (updateFirst p f t) ha]
      exact ih x h

theorem mem_updateFirst {α : Type} (p : α → Bool) (f : α → α) :
    ∀ (l : List α) (y : α), y ∈ updateFirst p f l →
      y ∈ l ∨ ∃ x ∈ l, y = f x := by
  intro l
  induction l with
  | nil => intro y h; simp [updateFirst] at h
  | cons a t ih =>
    intro y h
    simp only [updateFirst] at h
    by_cases ha : p a = true
    · rw [if_pos ha] at h
      rcases List.mem_cons.mp h with h1 | h2
      · exact Or.inr ⟨a, List.mem_cons_self a t, h1⟩
      · exact Or.inl (List.mem_cons_of_mem a h2)
    · rw [if_neg ha] at h
      rcases List.mem_cons.mp h with h1 | h2
      · exact Or.inl (h1 ▸ List.mem_cons_self a t)
      · rcases ih y h2 with h3 | ⟨x, hx, hy⟩
        · exact Or.inl (List.mem_cons_of_mem a h3)
        · exact Or.inr ⟨x, List.mem_cons_of_mem a hx, hy⟩

theorem date_valid_iff (dt : Date) :
    dt.Valid ↔ 1 ≤ dt.year ∧ dt.year ≤ 9999 ∧ 1 ≤ dt.month ∧ dt.month ≤ 12 ∧
      1 ≤ dt.day ∧ dt.day ≤ daysInMonth dt.year dt.month := by
  simp [Date.Valid, validDate, Bool.and_eq_true, decide_eq_true_eq, and_assoc]

theorem dateLe_iff (a b : Date) :
    dateLe a b = true ↔
      a.year < b.year ∨ (a.year = b.year ∧ (a.month < b.month ∨
        (a.month = b.month ∧ a.day ≤ b.day))) := by
  simp [dateLe, Bool.or_eq_true, Bool.and_eq_true, decide_eq_true_eq, beq_iff_eq]

theorem pyDate_ok (y : Int) (m d : Nat) (h : validDate y m d = true) :
    pyDate y m d = .ok ⟨y, m, d⟩ := by
  simp [pyDate, h]

theorem pyDate_err (y : Int) (m d : Nat) (h : validDate y m d = false) :
    pyDate y m d = .error .valueError := by
  simp [pyDate, h]

theorem addYears_ok (dt : Date) (n : Int) (h1 : 1 ≤ dt.year + n)
    (h2 : dt.year + n ≤ 9999) : addYears dt n = .ok (shiftYears dt n) := by
  unfold addYears
  rw [if_pos (by simp [h1, h2])]

theorem addMonths_ok (dt : Date) (n : Nat)
    (h1 : 1 ≤ (shiftMonths dt n).year) (h2 : (shiftMonths dt n).year ≤ 9999) :
    addMonths dt n = .ok (shiftMonths dt n) := by
  unfold addMonths
  rw [if_pos (by simp [h1, h2])]

theorem prevDay_ok (dt : Date) (h : ¬(dt.year = 1 ∧ dt.month = 1 ∧ dt.day = 1)) :
    prevDay dt = .ok (dayBefore dt) := by
  unfold prevDay
  rw [if_neg (by simp only [Bool.and_eq_true, beq_iff_eq, and_assoc]; exact h)]

theorem one_le_daysInMonth (y : Int) (m : Nat) : 1 ≤ daysInMonth y m := by
  unfold daysInMonth
  split
  · split <;> omega
  · split <;> omega

theorem daysInMonth_le_31 (y : Int) (m : Nat) : daysInMonth y m ≤ 31 := by
  unfold daysInMonth
  split
  · split <;> omega
  · split <;> omega

/-! ## Claim theorems -/

/-- C9: for a user with no active cards, `detect_benefits_for_user` returns
exactly the two-field result `detected = 0, cards_checked = 0` — with no
`benefits` key — and the database state is returned unchanged, before any
write or commit. -/
theorem c9_no_active_cards_early_return (db : Db) (user_id : Nat) (today : Date)
    (h : db.user_cards.filter (fun uc => uc.user_id == user_id && uc.active) = []) :
    detect_benefits_for_user db user_id today =
      .ok ({ detected := 0, cards_checked := 0, benefits := none }, db) := by
  simp [detect_benefits_for_user, h, pure, Except.pure]

/-- Witness for C9: user 2 owns no card in the test database. -/
theorem c9_no_active_cards_early_return_witness :
    detect_benefits_for_user dbTest 2 todayTest =
      .ok ({ detected := 0, cards_checked := 0, benefits := none }, dbTest) :=
  c9_no_active_cards_early_return dbTest 2 todayTest rfl

/-- C1 (code bug): rerunning `detect_benefits_for_user` on the state produced
by a first run is not idempotent.  On the exact scenario of the repository
test `test_detect_benefits_does_not_reapply_same_transaction` (one 20-dollar
dining credit, limit 50), the second run reports `detected = 0` but
accumulates the same transaction again: `amount_used` becomes 40 and
`usage_count` becomes 2, although `Transaction.benefit_slug` was already set
to the benefit slug by the first run.  `_record_benefit_usage` never reads
`transaction.benefit_slug`, so the already-applied short-circuit the spec
and the repository test require does not exist. -/
theorem c1_detector_rerun_double_counts :
    ∃ r1 db1 r2 db2,
      detect_benefits_for_user dbTest 1 todayTest = .ok (r1, db1) ∧
      detect_benefits_for_user db1 1 todayTest = .ok (r2, db2) ∧
      r1.detected = 1 ∧
      db1.benefit_periods.map (fun p => (p.amount_used, p.usage_count)) = [(20, 1)] ∧
      (db1.transactions.map fun t => t.benefit_slug) = [some "dining-credit"] ∧
      r2.detected = 0 ∧
      db2.benefit_periods.map (fun p => (p.amount_used, p.usage_count)) = [(40, 2)] :=
  ⟨_, _, _, _, rfl, rfl, rfl, rfl, rfl, rfl, rfl⟩

/-- C2 (counterexample): a single 70-dollar credit against a 50-dollar limit
is stored with `amount_used = 70`, not `min(70, 50) = 50`; the detector does
not clamp, and the stored row violates `amount_used ≤ amount_limit`. -/
theorem c2_clamping_counterexample :
    ∃ r db1 p,
      detect_benefits_for_user dbOverLimit 1 todayTest = .ok (r, db1) ∧
      db1.benefit_periods = [p] ∧
      p.amount_used = 70 ∧ p.amount_limit = 50 ∧
      p.amount_used ≠ min 70 p.amount_limit ∧
      ¬ p.amount_used ≤ p.amount_limit :=
  ⟨_, _, _, rfl, rfl, rfl, rfl, by decide, by decide⟩

/-- C2 (amended): the detector stores `amount_used = amount` on creation and
`amount_used := amount_used + amount` on accumulation, without clamping to
`amount_limit`, so `amount_used` can exceed `amount_limit`; `completed` is
set exactly when the stored amount reaches the benefit value. -/
theorem c2_usage_writes_unclamped (db : Db) (uc : UserCardRow) (b : BenefitDef)
    (txn : TransactionRow) (ps pe : Date) :
    (db.benefit_periods.find? (periodKey uc.id b.slug ps.iso) = none →
      ∃ newRow, record_benefit_usage db uc b txn ps pe =
        (true, { db with benefit_periods := db.benefit_periods ++ [newRow] }) ∧
        newRow.amount_used = |txn.amount| ∧
        newRow.amount_limit = b.value.getD 0 ∧
        newRow.usage_count = 1 ∧
        (newRow.completed = true ↔ b.value.getD 0 ≤ |txn.amount|)) ∧
    (∀ ex, db.benefit_periods.find? (periodKey uc.id b.slug ps.iso) = some ex →
      ∃ db1, record_benefit_usage db uc b txn ps pe = (false, db1) ∧
        db1.benefit_periods.find? (periodKey uc.id b.slug ps.iso) =
          some (accumulatePeriod |txn.amount| (b.value.getD 0) ex) ∧
        (accumulatePeriod |txn.amount| (b.value.getD 0) ex).amount_used =
          ex.amount_used + |txn.amount| ∧
        (accumulatePeriod |txn.amount| (b.value.getD 0) ex).usage_count =
          ex.usage_count + 1) := by
  constructor
  · intro h
    simp only [record_benefit_usage, h]
    exact ⟨_, rfl, rfl, rfl, rfl, by simp [ge_iff_le, decide_eq_true_eq]⟩
  · intro ex hex
    simp only [record_benefit_usage, hex]
    refine ⟨_, rfl, ?_, ?_, ?_⟩
    · exact find?_updateFirst _ _
        (fun x => by simp only [accumulatePeriod]; split <;> rfl) _ ex hex
    · simp only [accumulatePeriod]; split <;> rfl
    · simp only [accumulatePeriod]; split <;> rfl

/-- Witness for C2 (amended): creating the period for the over-limit credit
in the empty store. -/
theorem c2_usage_writes_unclamped_witness :
    ∃ newRow, record_benefit_usage dbTest userCardTest benefitDining txnOverLimit
        ⟨2025, 3, 1⟩ ⟨2025, 3, 31⟩ =
        (true, { dbTest with benefit_periods := dbTest.benefit_periods ++ [newRow] }) ∧
      newRow.amount_used = |txnOverLimit.amount| ∧
      newRow.amount_limit = benefitDining.value.getD 0 ∧
      newRow.usage_count = 1 ∧
      (newRow.completed = true ↔ benefitDining.value.getD 0 ≤ |txnOverLimit.amount|) :=
  (c2_usage_writes_unclamped dbTest userCardTest benefitDining txnOverLimit
    ⟨2025, 3, 1⟩ ⟨2025, 3, 31⟩).1 rfl

/-- C3 (code bug): with email notifications enabled (the default),
`send_weekly_digest_for_user` raises
`TypeError: unexpected keyword argument include_muted` — the selector
functions call `get_benefit_status_for_user` with keyword `include_muted`
while its parameter is named `include_hidden` — instead of assembling the
report; only the disabled-notifications case returns without output. -/
theorem c3_digest_raises_type_error :
    send_weekly_digest_for_user dbTest true userEnabled =
      .error includeMutedTypeError ∧
    send_weekly_digest_for_user dbTest true userDisabled = .ok false :=
  ⟨rfl, rfl⟩

/-- C6 (counterexample): the anniversary string `02-29` with non-leap
reference year 2025 raises `ValueError` (the claim requires Feb 28), and the
detector resolution that wraps the parse yields no anniversary at all. -/
theorem c6_feb29_counterexample :
    parse_anniversary_to_date "02-29" ⟨2025, 6, 1⟩ = .error .valueError ∧
    resolve_card_anniversary (some "02-29") ⟨2025, 6, 1⟩ = none ∧
    isLeap 2025 = false :=
  ⟨rfl, rfl, by decide⟩

/-- C6 (amended): both `YYYY-MM-DD` and `MM-DD` anniversary strings parse,
the latter resolved against the reference year; but a Feb-29 `MM-DD`
anniversary in a non-leap reference year raises `ValueError` (never Feb 28),
which the detector catches, leaving the card with no anniversary. -/
theorem c6_anniversary_parsing_amended (ref : Date) (hv : ref.Valid) :
    parse_anniversary_to_date "2024-02-29" ref = .ok (some ⟨2024, 2, 29⟩) ∧
    parse_anniversary_to_date "07-15" ref = .ok (some ⟨ref.year, 7, 15⟩) ∧
    (isLeap ref.year = false →
      parse_anniversary_to_date "02-29" ref = .error .valueError ∧
      resolve_card_anniversary (some "02-29") ref = none) := by
  rw [date_valid_iff] at hv
  have h715 : parse_anniversary_to_date "07-15" ref =
      (match pyDate ref.year 7 15 with
       | .ok dt => .ok (some dt)
       | .error e => .error e) := rfl
  have h229 : parse_anniversary_to_date "02-29" ref =
      (match pyDate ref.year 2 29 with
       | .ok dt => .ok (some dt)
       | .error e => .error e) := rfl
  refine ⟨rfl, ?_, ?_⟩
  · have hc : validDate ref.year 7 15 = true := by
      simp only [validDate, daysInMonth, Bool.and_eq_true, decide_eq_true_eq]
      norm_num
      omega
    have hok : pyDate ref.year 7 15 = .ok ⟨ref.year, 7, 15⟩ := by
      simp [pyDate, hc]
    rw [h715, hok]
  · intro hleap
    have hc : validDate ref.year 2 29 = false := by
      simp only [validDate, daysInMonth, hleap, Bool.and_eq_true, decide_eq_true_eq]
      norm_num
    have hbad : pyDate ref.year 2 29 = .error .valueError := by
      simp [pyDate, hc]
    have hp : parse_anniversary_to_date "02-29" ref = .error .valueError := by
      rw [h229, hbad]
    refine ⟨hp, ?_⟩
    show (match parse_anniversary_to_date "02-29" ref with
          | .ok d => d
          | .error _ => none) = none
    rw [hp]

/-- Witness for C6 (amended): the reference date 2025-06-01. -/
theorem c6_anniversary_parsing_amended_witness :
    parse_anniversary_to_date "2024-02-29" ⟨2025, 6, 1⟩ = .ok (some ⟨2024, 2, 29⟩) ∧
    parse_anniversary_to_date "07-15" ⟨2025, 6, 1⟩ = .ok (some ⟨2025, 7, 15⟩) ∧
    parse_anniversary_to_date "02-29" ⟨2025, 6, 1⟩ = .error .valueError ∧
    resolve_card_anniversary (some "02-29") ⟨2025, 6, 1⟩ = none := by
  have h := c6_anniversary_parsing_amended ⟨2025, 6, 1⟩ (by decide)
  exact ⟨h.1, h.2.1, (h.2.2 (by decide)).1, (h.2.2 (by decide)).2⟩

theorem derive_status_mem (tm : String) (r : Option BenefitPeriodRow) (dl : Int) :
    derive_status tm r dl = "used" ∨ derive_status tm r dl = "partial" ∨
    derive_status tm r dl = "available" ∨ derive_status tm r dl = "expiring" ∨
    derive_status tm r dl = "expired" ∨ derive_status tm r dl = "info" := by
  unfold derive_status
  split_ifs <;> simp

/-- C10: the status projection is read-only — whenever
`get_benefit_status_for_user` returns, the database state it returns is the
state it was given; the function contains no insert, attribute write, or
commit. -/
theorem c10_status_projection_readonly (db : Db) (user_id : Nat)
    (include_hidden : Bool) (today : Date) (out : List CardStatus × Db)
    (h : get_benefit_status_for_user db user_id include_hidden today = .ok out) :
    out.2 = db := by
  simp only [get_benefit_status_for_user] at h
  cases hm : mapExc
      (cardStatusOf db today include_hidden
        (db.settings.filter fun s => s.user_id == user_id && s.muted))
      (db.user_cards.filter fun uc => uc.user_id == user_id && uc.active) with
  | error e =>
    rw [hm] at h
    simp [bind, Except.bind] at h
  | ok res =>
    rw [hm] at h
    simp only [bind, Except.bind, pure, Except.pure, Except.ok.injEq] at h
    rw [← h]

/-- Witness for C10: the projection on the concrete test database. -/
theorem c10_status_projection_readonly_witness :
    ∃ out, get_benefit_status_for_user dbTest 1 false todayTest = .ok out ∧
      out.2 = dbTest :=
  ⟨_, rfl, c10_status_projection_readonly dbTest 1 false todayTest _ rfl⟩

/-- C7: every benefit record of the status projection carries exactly one
status from `used, partial, available, expiring, expired, info`, and the
derivation follows the specified priority order on the record's inputs
(`days_remaining` being `max 0 days_left`): `info` when
`tracking_mode = info`; else `used` when the period record exists and is
completed; else `partial` when it exists with positive `amount_used`; else
`expired` when `days_remaining = 0`; else `expiring` when
`days_remaining ≤ 7`; else `available`. -/
theorem c7_status_totality_priority :
    (∀ (tm : String) (r : Option BenefitPeriodRow) (dl : Int),
      (tm = "info" → derive_status tm r dl = "info") ∧
      (tm ≠ "info" → ∀ p, r = some p → p.completed = true →
        derive_status tm r dl = "used") ∧
      (tm ≠ "info" → ∀ p, r = some p → p.completed = false → 0 < p.amount_used →
        derive_status tm r dl = "partial") ∧
      (tm ≠ "info" →
        (r = none ∨ ∃ p, r = some p ∧ p.completed = false ∧ p.amount_used ≤ 0) →
        (max 0 dl = 0 → derive_status tm r dl = "expired") ∧
        (max 0 dl ≠ 0 → max 0 dl ≤ 7 → derive_status tm r dl = "expiring") ∧
        (7 < max 0 dl → derive_status tm r dl = "available"))) ∧
    (∀ (db : Db) (user_id : Nat) (include_hidden : Bool) (today : Date)
        (out : List CardStatus × Db),
      get_benefit_status_for_user db user_id include_hidden today = .ok out →
      ∀ cs ∈ out.1, ∀ b ∈ cs.benefits,
        b.status = "used" ∨ b.status = "partial" ∨ b.status = "available" ∨
        b.status = "expiring" ∨ b.status = "expired" ∨ b.status = "info") := by
  constructor
  · intro tm r dl
    refine ⟨?_, ?_, ?_, ?_⟩
    · intro h
      simp [derive_status, h]
    · intro hne p hr hc
      have h1 : (tm == "info") = false := by simp [hne]
      simp [derive_status, h1, hr, hc]
    · intro hne p hr hc hpos
      have h1 : (tm == "info") = false := by simp [hne]
      simp [derive_status, h1, hr, hc, hpos]
    · intro hne hrec
      have h1 : (tm == "info") = false := by simp [hne]
      have hred : derive_status tm r dl =
          (if dl ≤ 0 then "expired" else if dl ≤ 7 then "expiring" else "available") := by
        rcases hrec with h | ⟨p, hp, hc, hle⟩
        · subst h; simp [derive_status, h1]
        · subst hp
          have hc3 : decide (p.amount_used > 0) = false := by simpa using hle
          simp [derive_status, h1, hc, hc3]
      refine ⟨?_, ?_, ?_⟩
      · intro hdl
        have hd : dl ≤ 0 := by
          by_contra hn
          rw [sup_eq_right.mpr (le_of_lt (lt_of_not_le hn))] at hdl
          omega
        rw [hred, if_pos hd]
      · intro hdl hdl7
        have hpos : 0 < dl := by
          by_contra hn
          exact hdl (sup_eq_left.mpr (le_of_not_lt hn))
        have hd7 : dl ≤ 7 := le_trans (le_sup_right) hdl7
        rw [hred, if_neg (by omega), if_pos hd7]
      · intro hdl
        have hd : 7 < dl := by
          by_cases hn : dl ≤ 0
          · rw [sup_eq_left.mpr hn] at hdl; omega
          · rwa [sup_eq_right.mpr (le_of_lt (lt_of_not_le hn))] at hdl
        rw [hred, if_neg (by omega), if_neg (by omega)]
  · intro db user_id include_hidden today out h cs hcs b hb
    simp only [get_benefit_status_for_user] at h
    cases hm : mapExc
        (cardStatusOf db today include_hidden
          (db.settings.filter fun s => s.user_id == user_id && s.muted))
        (db.user_cards.filter fun uc => uc.user_id == user_id && uc.active) with
    | error e =>
      rw [hm] at h
      simp [bind, Except.bind] at h
    | ok res =>
      rw [hm] at h
      simp only [bind, Except.bind, pure, Except.pure, Except.ok.injEq] at h
      rw [← h] at hcs
      obtain ⟨uc, _, hcsOk⟩ := mapExc_mem _ _ _ hm cs hcs
      simp only [cardStatusOf] at hcsOk
      cases hcc : db.card_configs.find? (fun c => c.id == uc.card_config_id) with
      | none => rw [hcc] at hcsOk; simp at hcsOk
      | some cc =>
        rw [hcc] at hcsOk
        cases hrw : renewalInfo today
            (resolve_card_anniversary uc.card_anniversary today) with
        | error e => rw [hrw] at hcsOk; simp [bind, Except.bind] at hcsOk
        | ok dn =>
          rw [hrw] at hcsOk
          simp only [bind, Except.bind] at hcsOk
          cases hmb : mapExc
              (benefitRecordOf db today uc
                (resolve_card_anniversary uc.card_anniversary today)
                (db.settings.filter fun s => s.user_id == user_id && s.muted))
              (cc.benefits.filter fun bd =>
                !(isHidden (db.settings.filter fun s =>
                    s.user_id == user_id && s.muted) uc.id bd.slug) ||
                  include_hidden) with
          | error e => rw [hmb] at hcsOk; simp [Except.bind] at hcsOk
          | ok recs =>
            rw [hmb] at hcsOk
            simp only [pure, Except.pure, Except.ok.injEq] at hcsOk
            rw [← hcsOk] at hb
            simp only at hb
            obtain ⟨bd, _, hbOk⟩ := mapExc_mem _ _ _ hmb b hb
            simp only [benefitRecordOf] at hbOk
            cases hgp : get_period_boundaries ((bd.cadence).getD "monthly") today
                (if bd.reset_type == some "cardmember_year"
                 then resolve_card_anniversary uc.card_anniversary today
                 else none)
                bd.reset_type 4 none with
            | error e => rw [hgp] at hbOk; simp [bind, Except.bind] at hbOk
            | ok pse =>
              rw [hgp] at hbOk
              simp only [bind, Except.bind, pure, Except.pure,
                Except.ok.injEq] at hbOk
              rw [← hbOk]
              simp only
              exact derive_status_mem _ _ _

/-- Witness for C7: the derivation clauses at concrete inputs, through the
theorem itself. -/
theorem c7_status_totality_priority_witness :
    derive_status "info" none 5 = "info" ∧
    derive_status "auto" none 5 = "expiring" := by
  refine ⟨(c7_status_totality_priority.1 "info" none 5).1 rfl, ?_⟩
  exact ((c7_status_totality_priority.1 "auto" none 5).2.2.2 (by decide)
    (Or.inl rfl)).2.1 (by decide) (by decide)

theorem sessionMatch_markRevoked (u j n : Nat) (x : RefreshSessionRow) :
    sessionMatch u j (markRevoked n x) = sessionMatch u j x := rfl

theorem refresh_tokens_ok (stx : AuthDb) (tok : RefreshToken)
    (sess : RefreshSessionRow)
    (htyp : tok.typ = "refresh")
    (hfind : stx.sessions.find?
      (sessionMatch tok.sub (hash_token_id tok.jti)) = some sess)
    (hrev : sess.revoked_at = none)
    (hexp : stx.now < sess.expires_at)
    (huser : stx.users.contains tok.sub = true) :
    refresh_tokens stx tok =
      .ok (create_refresh_session (revokedState stx tok) tok.sub (some sess.id)) := by
  unfold refresh_tokens
  rw [if_neg (by simp [htyp]), hfind]
  dsimp only
  rw [if_neg (by simp [hrev]), if_neg (by omega), if_neg (by rw [huser]; simp)]

theorem refresh_tokens_revoked_err (stx : AuthDb) (tok : RefreshToken)
    (sess : RefreshSessionRow)
    (hfind : stx.sessions.find?
      (sessionMatch tok.sub (hash_token_id tok.jti)) = some sess)
    (hrev : sess.revoked_at.isSome = true) :
    refresh_tokens stx tok = .error 401 := by
  unfold refresh_tokens
  by_cases htyp : (tok.typ != "refresh") = true
  · rw [if_pos htyp]
  · rw [if_neg htyp, hfind]
    dsimp only
    rw [if_pos hrev]

/-- C8: after a successful refresh with token `t_old` that issues `t_new`,
presenting `t_old` again is rejected with 401 (its session row was marked
revoked in the same transaction that inserted the new session), and
presenting `t_new` succeeds exactly once: the first refresh with `t_new`
succeeds, and a further refresh with `t_new` is rejected with 401. -/
theorem c8_refresh_rotation (st : AuthDb) (t_old : RefreshToken)
    (st1 : AuthDb) (t_new : RefreshToken) (hfresh : JtiFresh st)
    (h : refresh_tokens st t_old = .ok (st1, t_new)) :
    refresh_tokens st1 t_old = .error 401 ∧
    ∃ st2 t2, refresh_tokens st1 t_new = .ok (st2, t2) ∧
      refresh_tokens st2 t_new = .error 401 := by
  unfold refresh_tokens at h
  by_cases htyp : (t_old.typ != "refresh") = true
  · rw [if_pos htyp] at h; exact absurd h (by simp)
  rw [if_neg htyp] at h
  cases hfind : st.sessions.find?
      (sessionMatch t_old.sub (hash_token_id t_old.jti)) with
  | none => rw [hfind] at h; exact absurd h (by simp)
  | some sess =>
  rw [hfind] at h
  dsimp only at h
  by_cases hrev : sess.revoked_at.isSome = true
  · rw [if_pos hrev] at h; exact absurd h (by simp)
  rw [if_neg hrev] at h
  by_cases hexp : sess.expires_at ≤ st.now
  · rw [if_pos hexp] at h; exact absurd h (by simp)
  rw [if_neg hexp] at h
  by_cases huser : (!(st.users.contains t_old.sub)) = true
  · rw [if_pos huser] at h; exact absurd h (by simp)
  rw [if_neg huser] at h
  have hpair : Except.ok
      (Prod.mk
        (create_refresh_session (revokedState st t_old) t_old.sub (some sess.id)).1
        (create_refresh_session (revokedState st t_old) t_old.sub (some sess.id)).2) =
      (Except.ok (st1, t_new) : Except Nat (AuthDb × RefreshToken)) := h
  simp only [Except.ok.injEq, Prod.mk.injEq] at hpair
  obtain ⟨hst1, htok⟩ := hpair
  subst hst1
  subst htok
  have hcontains : st.users.contains t_old.sub = true := by
    simpa using huser
  have hf1 : (updateFirst (sessionMatch t_old.sub (hash_token_id t_old.jti))
      (markRevoked st.now) st.sessions).find?
      (sessionMatch t_old.sub (hash_token_id t_old.jti)) =
      some (markRevoked st.now sess) :=
    find?_updateFirst _ _ (fun x => sessionMatch_markRevoked _ _ _ x)
      st.sessions sess hfind
  have hfreshRow : ∀ x ∈ updateFirst
      (sessionMatch t_old.sub (hash_token_id t_old.jti))
      (markRevoked st.now) st.sessions, x.jti_hash < st.next_jti := by
    intro x hx
    rcases mem_updateFirst _ _ _ _ hx with hmem | ⟨z, hz, hxz⟩
    · exact hfresh x hmem
    · rw [hxz]; exact hfresh z hz
  have hnew : ∀ x ∈ updateFirst
      (sessionMatch t_old.sub (hash_token_id t_old.jti))
      (markRevoked st.now) st.sessions,
      ¬ (sessionMatch t_old.sub (hash_token_id st.next_jti) x = true) := by
    intro x hx hmatch
    have hlt := hfreshRow x hx
    simp only [sessionMatch, hash_token_id, Bool.and_eq_true, beq_iff_eq] at hmatch
    omega
  have hfOld1 : (updateFirst (sessionMatch t_old.sub (hash_token_id t_old.jti))
      (markRevoked st.now) st.sessions ++
      [newSessionRow (revokedState st t_old) t_old.sub (some sess.id)]).find?
      (sessionMatch t_old.sub (hash_token_id t_old.jti)) =
      some (markRevoked st.now sess) := by
    rw [List.find?_append, hf1]
    rfl
  have hfNew : (updateFirst (sessionMatch t_old.sub (hash_token_id t_old.jti))
      (markRevoked st.now) st.sessions ++
      [newSessionRow (revokedState st t_old) t_old.sub (some sess.id)]).find?
      (sessionMatch t_old.sub (hash_token_id st.next_jti)) =
      some (newSessionRow (revokedState st t_old) t_old.sub (some sess.id)) := by
    rw [List.find?_append, List.find?_eq_none.mpr hnew]
    simp [sessionMatch, newSessionRow, hash_token_id, revokedState]
  constructor
  · exact refresh_tokens_revoked_err _ t_old (markRevoked st.now sess) hfOld1 rfl
  · have hok := refresh_tokens_ok
      (create_refresh_session (revokedState st t_old) t_old.sub (some sess.id)).1
      (create_refresh_session (revokedState st t_old) t_old.sub (some sess.id)).2
      (newSessionRow (revokedState st t_old) t_old.sub (some sess.id))
      rfl hfNew rfl
      (by
        show st.now < st.now + refreshExpireDays
        have h7 : refreshExpireDays = 7 := rfl
        omega)
      hcontains
    have hfind3 : ∀ l2 : List RefreshSessionRow,
        (updateFirst (sessionMatch t_old.sub (hash_token_id st.next_jti))
          (markRevoked st.now)
          (updateFirst (sessionMatch t_old.sub (hash_token_id t_old.jti))
            (markRevoked st.now) st.sessions ++
            [newSessionRow (revokedState st t_old) t_old.sub (some sess.id)]) ++ l2).find?
          (sessionMatch t_old.sub (hash_token_id st.next_jti)) =
        some (markRevoked st.now
          (newSessionRow (revokedState st t_old) t_old.sub (some sess.id))) := by
      intro l2
      rw [List.find?_append,
        find?_updateFirst (sessionMatch t_old.sub (hash_token_id st.next_jti))
          (markRevoked st.now) (fun x => sessionMatch_markRevoked _ _ _ x)
          _ _ hfNew]
      rfl
    refine ⟨_, _, hok, ?_⟩
    exact refresh_tokens_revoked_err _ _
      (markRevoked st.now
        (newSessionRow (revokedState st t_old) t_old.sub (some sess.id)))
      (hfind3 _)
      rfl

/-- Witness for C8: rotation on the one-session test state. -/
theorem c8_refresh_rotation_witness :
    ∃ st1 t_new, refresh_tokens authDbTest tokOld = .ok (st1, t_new) ∧
      refresh_tokens st1 tokOld = .error 401 ∧
      ∃ st2 t2, refresh_tokens st1 t_new = .ok (st2, t2) ∧
        refresh_tokens st2 t_new = .error 401 :=
  ⟨_, _, rfl, c8_refresh_rotation authDbTest tokOld _ _ (by decide) rfl⟩

/-- C5: for annual cadence with `reset_type = cardmember_year` and an
anniversary `a`, letting `A = date(ref.year, a.month, a.day)`, the window is
`[A, A + 1 year - 1 day]` when `ref ≥ A` and `[A - 1 year, A - 1 day]`
otherwise (year arithmetic clamps the day, as `relativedelta` does); in
particular anniversary 07-15 yields `[2025-07-15, 2026-07-14]` for reference
2025-08-01 and `[2024-07-15, 2025-07-14]` for reference 2025-06-01. -/
theorem c5_cardmember_year_window :
    (∀ (ref a A : Date), 2 ≤ ref.year → ref.year ≤ 9998 →
      pyDate ref.year a.month a.day = .ok A →
      (dateLe A ref = true →
        get_period_boundaries "annual" ref (some a) (some "cardmember_year") 4 none =
          .ok (A, dayBefore (shiftYears A 1))) ∧
      (dateLe A ref = false →
        get_period_boundaries "annual" ref (some a) (some "cardmember_year") 4 none =
          .ok (shiftYears A (-1), dayBefore A))) ∧
    get_period_boundaries "annual" ⟨2025, 8, 1⟩ (some ⟨2025, 7, 15⟩)
      (some "cardmember_year") 4 none =
      .ok (⟨2025, 7, 15⟩, ⟨2026, 7, 14⟩) ∧
    get_period_boundaries "annual" ⟨2025, 6, 1⟩ (some ⟨2025, 7, 15⟩)
      (some "cardmember_year") 4 none =
      .ok (⟨2024, 7, 15⟩, ⟨2025, 7, 14⟩) := by
  have hann : ∀ (r aa : Date),
      get_period_boundaries "annual" r (some aa) (some "cardmember_year") 4 none =
      (do
        let anniv_this_year ← pyDate r.year aa.month aa.day
        if dateLe anniv_this_year r then do
          let y1 ← addYears anniv_this_year 1
          let e ← prevDay y1
          return (anniv_this_year, e)
        else do
          let s ← addYears anniv_this_year (-1)
          let e ← prevDay anniv_this_year
          return (s, e)) := fun r aa => rfl
  refine ⟨?_, rfl, rfl⟩
  intro ref a A h2 h9998 hA
  have hv : validDate ref.year a.month a.day = true := by
    by_contra hnv
    rw [Bool.not_eq_true] at hnv
    rw [pyDate_err _ _ _ hnv] at hA
    exact absurd hA (by simp)
  have hAe : A = ⟨ref.year, a.month, a.day⟩ := by
    rw [pyDate_ok _ _ _ hv] at hA
    injection hA with h
    exact h.symm
  subst hAe
  constructor
  · intro hle
    rw [hann, pyDate_ok _ _ _ hv]
    simp only [bind, Except.bind]
    rw [if_pos hle]
    rw [addYears_ok _ _ (by show (1:Int) ≤ ref.year + 1; omega)
      (by show ref.year + (1:Int) ≤ 9999; omega)]
    simp only [bind, Except.bind]
    rw [prevDay_ok _ (by
      rintro ⟨hy, -, -⟩
      have : ref.year + 1 = 1 := hy
      omega)]
    rfl
  · intro hlt
    rw [hann, pyDate_ok _ _ _ hv]
    simp only [bind, Except.bind]
    rw [if_neg (by simp [hlt])]
    rw [addYears_ok _ _ (by show (1:Int) ≤ ref.year + (-1); omega)
      (by show ref.year + (-1:Int) ≤ 9999; omega)]
    simp only [bind, Except.bind]
    rw [prevDay_ok _ (by
      rintro ⟨hy, -, -⟩
      have : ref.year = 1 := hy
      omega)]
    rfl

/-- Witness for C5: both branches at the concrete example dates. -/
theorem c5_cardmember_year_window_witness :
    get_period_boundaries "annual" ⟨2025, 8, 1⟩ (some ⟨2025, 7, 15⟩)
      (some "cardmember_year") 4 none =
      .ok (⟨2025, 7, 15⟩, dayBefore (shiftYears ⟨2025, 7, 15⟩ 1)) ∧
    get_period_boundaries "annual" ⟨2025, 6, 1⟩ (some ⟨2025, 7, 15⟩)
      (some "cardmember_year") 4 none =
      .ok (shiftYears ⟨2025, 7, 15⟩ (-1), dayBefore ⟨2025, 7, 15⟩) := by
  have h := c5_cardmember_year_window.1
  exact ⟨(h ⟨2025, 8, 1⟩ ⟨2025, 7, 15⟩ ⟨2025, 7, 15⟩ (by decide) (by decide)
      rfl).1 (by decide),
    (h ⟨2025, 6, 1⟩ ⟨2025, 7, 15⟩ ⟨2025, 7, 15⟩ (by decide) (by decide)
      rfl).2 (by decide)⟩

theorem dateLe_refl (a : Date) : dateLe a a = true := by simp [dateLe]

theorem validDate_of (y : Int) (m d : Nat)
    (h : 1 ≤ y ∧ y ≤ 9999 ∧ 1 ≤ m ∧ m ≤ 12 ∧ 1 ≤ d ∧ d ≤ daysInMonth y m) :
    validDate y m d = true := by
  simp only [validDate, Bool.and_eq_true, decide_eq_true_eq, and_assoc]
  exact h

theorem pyDate_eq_ok (y : Int) (m d : Nat) (dt : Date)
    (h : pyDate y m d = .ok dt) : dt = ⟨y, m, d⟩ := by
  unfold pyDate at h
  split at h
  · injection h with h1
    exact h1.symm
  · simp at h

theorem month_window (y : Int) (sm n : Nat) (hy1 : 1 ≤ y) (hy2 : y ≤ 9999)
    (hsm : 1 ≤ sm) (hn : 1 ≤ n) (hr : sm + n ≤ 13)
    (hov : sm + n ≤ 12 ∨ y ≤ 9998) :
    ∃ mid, addMonths ⟨y, sm, 1⟩ n = .ok mid ∧
      prevDay mid = .ok ⟨y, sm + n - 1, daysInMonth y (sm + n - 1)⟩ := by
  by_cases hc : sm + n ≤ 12
  · have hshift : shiftMonths ⟨y, sm, 1⟩ n = ⟨y, sm + n, 1⟩ := by
      simp only [shiftMonths, clampDay]
      have e1 : (sm - 1 + n) / 12 = 0 := Nat.div_eq_of_lt (by omega)
      have e2 : (sm - 1 + n) % 12 = sm - 1 + n := Nat.mod_eq_of_lt (by omega)
      rw [e1, e2]
      have e3 : sm - 1 + n + 1 = sm + n := by omega
      rw [e3]
      simp [Nat.min_eq_left (one_le_daysInMonth y (sm + n))]
    refine ⟨⟨y, sm + n, 1⟩, ?_, ?_⟩
    · rw [addMonths_ok _ _ (by rw [hshift]; exact hy1) (by rw [hshift]; exact hy2),
        hshift]
    · rw [prevDay_ok _ (by
        rintro ⟨-, h2, -⟩
        have : sm + n = 1 := h2
        omega)]
      have hdb : dayBefore ⟨y, sm + n, 1⟩ =
          ⟨y, sm + n - 1, daysInMonth y (sm + n - 1)⟩ := by
        unfold dayBefore
        rw [if_neg (by show ¬(1 < 1); omega), if_pos (by show 1 < sm + n; omega)]
      rw [hdb]
  · have h13 : sm + n = 13 := by omega
    have hyx : y ≤ 9998 := by
      rcases hov with h | h
      · omega
      · exact h
    have hshift : shiftMonths ⟨y, sm, 1⟩ n = ⟨y + 1, 1, 1⟩ := by
      simp only [shiftMonths, clampDay]
      have e0 : sm - 1 + n = 12 := by omega
      rw [e0]
      simp [daysInMonth]
    refine ⟨⟨y + 1, 1, 1⟩, ?_, ?_⟩
    · rw [addMonths_ok _ _ (by rw [hshift]; show (1:Int) ≤ y + 1; omega)
        (by rw [hshift]; show y + (1:Int) ≤ 9999; omega), hshift]
    · rw [prevDay_ok _ (by
        rintro ⟨h1, -, -⟩
        have : y + 1 = 1 := h1
        omega)]
      have hdb : dayBefore ⟨y + 1, 1, 1⟩ = ⟨y, 12, 31⟩ := by
        unfold dayBefore
        rw [if_neg (by show ¬(1 < 1); omega), if_neg (by show ¬(1 < 1); omega)]
        simp only [Date.mk.injEq, and_true]
        omega
      rw [hdb, show sm + n - 1 = 12 from by omega]
      rfl

theorem monthly_case (ref : Date) (hy1 : 1 ≤ ref.year) (hy2 : ref.year ≤ 9999)
    (hm1 : 1 ≤ ref.month) (hm2 : ref.month ≤ 12)
    (hok : ¬(ref.year = 9999 ∧ ref.month = 12)) :
    get_period_boundaries "monthly" ref none none 4 none =
      .ok (⟨ref.year, ref.month, 1⟩,
           ⟨ref.year, ref.month, daysInMonth ref.year ref.month⟩) := by
  have hred : get_period_boundaries "monthly" ref none none 4 none =
      (do
        let m1 ← addMonths ⟨ref.year, ref.month, 1⟩ 1
        let e ← prevDay m1
        return ((⟨ref.year, ref.month, 1⟩ : Date), e)) := rfl
  obtain ⟨mid, ha, hp⟩ := month_window ref.year ref.month 1 hy1 hy2 hm1
    (by omega) (by omega)
    (by
      by_cases hm12 : ref.month = 12
      · right
        have : ref.year ≠ 9999 := fun hy => hok ⟨hy, hm12⟩
        omega
      · left; omega)
  rw [hred, ha]
  simp only [bind, Except.bind]
  rw [hp]
  simp only [bind, Except.bind, pure, Except.pure, Nat.add_sub_cancel]

theorem quarterly_case (ref : Date) (hy1 : 1 ≤ ref.year) (hy2 : ref.year ≤ 9999)
    (hm1 : 1 ≤ ref.month) (hm2 : ref.month ≤ 12)
    (hok : ¬(ref.year = 9999 ∧ 10 ≤ ref.month)) :
    get_period_boundaries "quarterly" ref none none 4 none =
      .ok (⟨ref.year, (ref.month - 1) / 3 * 3 + 1, 1⟩,
           ⟨ref.year, (ref.month - 1) / 3 * 3 + 3,
            daysInMonth ref.year ((ref.month - 1) / 3 * 3 + 3)⟩) := by
  have hred : get_period_boundaries "quarterly" ref none none 4 none =
      (do
        let start ← pyDate ref.year ((ref.month - 1) / 3 * 3 + 1) 1
        let m3 ← addMonths start 3
        let e ← prevDay m3
        return (start, e)) := rfl
  have hsm10 : (ref.month - 1) / 3 * 3 + 1 ≤ 10 := by omega
  have hstart : pyDate ref.year ((ref.month - 1) / 3 * 3 + 1) 1 =
      .ok ⟨ref.year, (ref.month - 1) / 3 * 3 + 1, 1⟩ :=
    pyDate_ok _ _ _ (validDate_of _ _ _
      ⟨hy1, hy2, by omega, by omega, by omega, one_le_daysInMonth _ _⟩)
  obtain ⟨mid, ha, hp⟩ := month_window ref.year ((ref.month - 1) / 3 * 3 + 1) 3
    hy1 hy2 (by omega) (by omega) (by omega)
    (by
      by_cases hsm : (ref.month - 1) / 3 * 3 + 1 = 10
      · right
        have hm10 : 10 ≤ ref.month := by omega
        have : ref.year ≠ 9999 := fun hy => hok ⟨hy, hm10⟩
        omega
      · left; omega)
  rw [hred, hstart]
  simp only [bind, Except.bind]
  rw [ha]
  simp only [bind, Except.bind]
  rw [hp]
  simp only [bind, Except.bind, pure, Except.pure]
  rw [show (ref.month - 1) / 3 * 3 + 1 + 3 - 1 = (ref.month - 1) / 3 * 3 + 3 from by omega]

/-- C4 (counterexample): `get_period_boundaries` fails on a valid date with
optional arguments at their defaults — rolling cadence on 2096-02-29
constructs `date(2100, 2, 29)`, and 2100 is not a leap year, so the call
raises `ValueError`. -/
theorem c4_rolling_feb29_counterexample :
    (⟨2096, 2, 29⟩ : Date).Valid ∧
    get_period_boundaries "rolling" ⟨2096, 2, 29⟩ none none 4 none =
      .error .valueError :=
  ⟨by decide, rfl⟩

/-- C4 (amended): whenever `get_period_boundaries` (optional arguments at
their defaults) returns a pair, `start ≤ reference_date ≤ end`; and it never
fails on a valid date for the semi-annual, annual and per-booking cadences,
nor for monthly and quarterly outside October-December 9999.  (It can fail
for rolling — e.g. Feb-29 references whose year plus or minus 4 is not leap,
or dates within four years of the supported year range — and for one-time
near the year bounds.) -/
theorem c4_period_bounds_containment (c : String) (ref : Date) (hv : ref.Valid) :
    (∀ s e, get_period_boundaries c ref none none 4 none = .ok (s, e) →
      dateLe s ref = true ∧ dateLe ref e = true) ∧
    ((c = "semi-annual" ∨ c = "annual" ∨ c = "per-booking") →
      ∃ p, get_period_boundaries c ref none none 4 none = .ok p) ∧
    ((c = "monthly" ∨ c = "quarterly") → ¬(ref.year = 9999 ∧ 10 ≤ ref.month) →
      ∃ p, get_period_boundaries c ref none none 4 none = .ok p) := by
  obtain ⟨hy1, hy2, hm1, hm2, hd1, hd2⟩ := (date_valid_iff ref).mp hv
  have hd31 : ref.day ≤ 31 := le_trans hd2 (daysInMonth_le_31 _ _)
  have hsemi : get_period_boundaries "semi-annual" ref none none 4 none =
      .ok (if ref.month ≤ 6 then ((⟨ref.year, 1, 1⟩ : Date), (⟨ref.year, 6, 30⟩ : Date))
           else ((⟨ref.year, 7, 1⟩ : Date), (⟨ref.year, 12, 31⟩ : Date))) := by
    have hred : get_period_boundaries "semi-annual" ref none none 4 none =
        (if ref.month ≤ 6 then (do
            let s ← pyDate ref.year 1 1
            let e ← pyDate ref.year 6 30
            return (s, e))
         else (do
            let s ← pyDate ref.year 7 1
            let e ← pyDate ref.year 12 31
            return (s, e))) := rfl
    rw [hred]
    by_cases hm6 : ref.month ≤ 6
    · rw [if_pos hm6, if_pos hm6,
        pyDate_ok _ _ _ (validDate_of _ _ _
          ⟨hy1, hy2, by omega, by omega, by omega, one_le_daysInMonth _ _⟩)]
      simp only [bind, Except.bind]
      rw [pyDate_ok _ _ _ (validDate_of _ _ _
        ⟨hy1, hy2, by omega, by omega, by omega, by simp [daysInMonth]⟩)]
      rfl
    · rw [if_neg hm6, if_neg hm6,
        pyDate_ok _ _ _ (validDate_of _ _ _
          ⟨hy1, hy2, by omega, by omega, by omega, one_le_daysInMonth _ _⟩)]
      simp only [bind, Except.bind]
      rw [pyDate_ok _ _ _ (validDate_of _ _ _
        ⟨hy1, hy2, by omega, by omega, by omega, by simp [daysInMonth]⟩)]
      rfl
  have hannual : get_period_boundaries "annual" ref none none 4 none =
      .ok ((⟨ref.year, 1, 1⟩ : Date), (⟨ref.year, 12, 31⟩ : Date)) := by
    have hred : get_period_boundaries "annual" ref none none 4 none =
        (do
          let s ← pyDate ref.year 1 1
          let e ← pyDate ref.year 12 31
          return (s, e)) := rfl
    rw [hred,
      pyDate_ok _ _ _ (validDate_of _ _ _
        ⟨hy1, hy2, by omega, by omega, by omega, one_le_daysInMonth _ _⟩)]
    simp only [bind, Except.bind]
    rw [pyDate_ok _ _ _ (validDate_of _ _ _
      ⟨hy1, hy2, by omega, by omega, by omega, by simp [daysInMonth]⟩)]
    rfl
  have hpb : get_period_boundaries "per-booking" ref none none 4 none =
      .ok (ref, ref) := rfl
  refine ⟨?_, ?_, ?_⟩
  · intro s e h
    by_cases hc1 : c = "monthly"
    · subst hc1
      by_cases hok : ref.year = 9999 ∧ ref.month = 12
      · have hred : get_period_boundaries "monthly" ref none none 4 none =
            (do
              let m1 ← addMonths ⟨ref.year, ref.month, 1⟩ 1
              let e ← prevDay m1
              return ((⟨ref.year, ref.month, 1⟩ : Date), e)) := rfl
        have hsh : (shiftMonths ⟨ref.year, ref.month, 1⟩ 1).year = ref.year + 1 := by
          simp [shiftMonths, hok.2]
        have hadd : addMonths ⟨ref.year, ref.month, 1⟩ 1 = .error .overflowError := by
          unfold addMonths
          rw [if_neg (by
            rw [hsh]
            simp only [Bool.and_eq_true, decide_eq_true_eq]
            omega)]
        rw [hred, hadd] at h
        exact absurd h (by simp [bind, Except.bind])
      · rw [monthly_case ref hy1 hy2 hm1 hm2 hok] at h
        injection h with hp
        rw [Prod.mk.injEq] at hp
        obtain ⟨hs, he⟩ := hp
        subst hs
        subst he
        constructor
        · rw [dateLe_iff]
          exact Or.inr ⟨rfl, Or.inr ⟨rfl, hd1⟩⟩
        · rw [dateLe_iff]
          exact Or.inr ⟨rfl, Or.inr ⟨rfl, hd2⟩⟩
    by_cases hc2 : c = "quarterly"
    · subst hc2
      by_cases hok : ref.year = 9999 ∧ 10 ≤ ref.month
      · have hred : get_period_boundaries "quarterly" ref none none 4 none =
            (do
              let start ← pyDate ref.year ((ref.month - 1) / 3 * 3 + 1) 1
              let m3 ← addMonths start 3
              let e ← prevDay m3
              return (start, e)) := rfl
        have hsm : (ref.month - 1) / 3 * 3 + 1 = 10 := by omega
        rw [hred, hsm,
          pyDate_ok _ _ _ (validDate_of _ _ _
            ⟨hy1, hy2, by omega, by omega, by omega, one_le_daysInMonth _ _⟩)] at h
        simp only [bind, Except.bind] at h
        have hsh : (shiftMonths ⟨ref.year, 10, 1⟩ 3).year = ref.year + 1 := by
          simp [shiftMonths]
        have hadd : addMonths ⟨ref.year, 10, 1⟩ 3 = .error .overflowError := by
          unfold addMonths
          rw [if_neg (by
            rw [hsh]
            simp only [Bool.and_eq_true, decide_eq_true_eq]
            omega)]
        rw [hadd] at h
        exact absurd h (by simp [bind, Except.bind])
      · rw [quarterly_case ref hy1 hy2 hm1 hm2 hok] at h
        injection h with hp
        rw [Prod.mk.injEq] at hp
        obtain ⟨hs, he⟩ := hp
        subst hs
        subst he
        constructor
        · rw [dateLe_iff]
          refine Or.inr ⟨rfl, ?_⟩
          by_cases hq : (ref.month - 1) / 3 * 3 + 1 = ref.month
          · exact Or.inr ⟨hq, hd1⟩
          · exact Or.inl (by show (ref.month - 1) / 3 * 3 + 1 < ref.month; omega)
        · rw [dateLe_iff]
          refine Or.inr ⟨rfl, ?_⟩
          by_cases hq : ref.month = (ref.month - 1) / 3 * 3 + 3
          · refine Or.inr ⟨hq, ?_⟩
            rw [← hq]
            exact hd2
          · exact Or.inl (by show ref.month < (ref.month - 1) / 3 * 3 + 3; omega)
    by_cases hc3 : c = "semi-annual"
    · subst hc3
      rw [hsemi] at h
      by_cases hm6 : ref.month ≤ 6
      · rw [if_pos hm6] at h
        injection h with hp
        rw [Prod.mk.injEq] at hp
        obtain ⟨hs, he⟩ := hp
        subst hs
        subst he
        constructor
        · rw [dateLe_iff]
          exact Or.inr ⟨rfl,
            by show 1 < ref.month ∨ (1 = ref.month ∧ 1 ≤ ref.day); omega⟩
        · rw [dateLe_iff]
          refine Or.inr ⟨rfl, ?_⟩
          by_cases h6 : ref.month = 6
          · refine Or.inr ⟨h6, ?_⟩
            have h30 : daysInMonth ref.year 6 = 30 := rfl
            rw [h6, h30] at hd2
            exact hd2
          · exact Or.inl (by show ref.month < 6; omega)
      · rw [if_neg hm6] at h
        injection h with hp
        rw [Prod.mk.injEq] at hp
        obtain ⟨hs, he⟩ := hp
        subst hs
        subst he
        constructor
        · rw [dateLe_iff]
          exact Or.inr ⟨rfl,
            by show 7 < ref.month ∨ (7 = ref.month ∧ 1 ≤ ref.day); omega⟩
        · rw [dateLe_iff]
          refine Or.inr ⟨rfl, ?_⟩
          by_cases h12 : ref.month = 12
          · exact Or.inr ⟨h12, by show ref.day ≤ 31; omega⟩
          · exact Or.inl (by show ref.month < 12; omega)
    by_cases hc4 : c = "annual"
    · subst hc4
      rw [hannual] at h
      injection h with hp
      rw [Prod.mk.injEq] at hp
      obtain ⟨hs, he⟩ := hp
      subst hs
      subst he
      constructor
      · rw [dateLe_iff]
        exact Or.inr ⟨rfl,
          by show 1 < ref.month ∨ (1 = ref.month ∧ 1 ≤ ref.day); omega⟩
      · rw [dateLe_iff]
        refine Or.inr ⟨rfl, ?_⟩
        by_cases h12 : ref.month = 12
        · exact Or.inr ⟨h12, by show ref.day ≤ 31; omega⟩
        · exact Or.inl (by show ref.month < 12; omega)
    by_cases hc5 : c = "rolling"
    · subst hc5
      have hred : get_period_boundaries "rolling" ref none none 4 none =
          (do
            let s ← pyDate (ref.year - 4) ref.month ref.day
            let e ← pyDate (ref.year + 4) ref.month ref.day
            return (s, e)) := rfl
      rw [hred] at h
      cases h1 : pyDate (ref.year - 4) ref.month ref.day with
      | error e1 => rw [h1] at h; exact absurd h (by simp [bind, Except.bind])
      | ok s1 =>
        rw [h1] at h
        simp only [bind, Except.bind] at h
        cases h2 : pyDate (ref.year + 4) ref.month ref.day with
        | error e2 => rw [h2] at h; exact absurd h (by simp [bind, Except.bind])
        | ok s2 =>
          rw [h2] at h
          simp only [pure, Except.pure, Except.ok.injEq, Prod.mk.injEq] at h
          obtain ⟨hs, he⟩ := h
          subst hs
          subst he
          rw [pyDate_eq_ok _ _ _ _ h1, pyDate_eq_ok _ _ _ _ h2]
          constructor
          · rw [dateLe_iff]
            exact Or.inl (by show ref.year - 4 < ref.year; omega)
          · rw [dateLe_iff]
            exact Or.inl (by show ref.year < ref.year + 4; omega)
    by_cases hc6 : c = "one-time"
    · subst hc6
      have hred : get_period_boundaries "one-time" ref none none 4 none =
          (do
            let s ← pyDate (ref.year - 4) 1 1
            let e ← pyDate (ref.year + 4) 12 31
            return (s, e)) := rfl
      rw [hred] at h
      cases h1 : pyDate (ref.year - 4) 1 1 with
      | error e1 => rw [h1] at h; exact absurd h (by simp [bind, Except.bind])
      | ok s1 =>
        rw [h1] at h
        simp only [bind, Except.bind] at h
        cases h2 : pyDate (ref.year + 4) 12 31 with
        | error e2 => rw [h2] at h; exact absurd h (by simp [bind, Except.bind])
        | ok s2 =>
          rw [h2] at h
          simp only [pure, Except.pure, Except.ok.injEq, Prod.mk.injEq] at h
          obtain ⟨hs, he⟩ := h
          subst hs
          subst he
          rw [pyDate_eq_ok _ _ _ _ h1, pyDate_eq_ok _ _ _ _ h2]
          constructor
          · rw [dateLe_iff]
            exact Or.inl (by show ref.year - 4 < ref.year; omega)
          · rw [dateLe_iff]
            exact Or.inl (by show ref.year < ref.year + 4; omega)
    by_cases hc7 : c = "per-booking"
    · subst hc7
      rw [hpb] at h
      injection h with hp
      rw [Prod.mk.injEq] at hp
      obtain ⟨hs, he⟩ := hp
      subst hs
      subst he
      exact ⟨dateLe_refl ref, dateLe_refl ref⟩
    · have herr : get_period_boundaries c ref none none 4 none =
          .error .valueError := by
        unfold get_period_boundaries
        rw [if_neg (by simp [hc1]), if_neg (by simp [hc2]), if_neg (by simp [hc3]),
          if_neg (by simp [hc4]), if_neg (by simp [hc5]), if_neg (by simp [hc6]),
          if_neg (by simp [hc7])]
      rw [herr] at h
      exact absurd h (by simp)
  · rintro (hc | hc | hc)
    · exact hc ▸ ⟨_, hsemi⟩
    · exact hc ▸ ⟨_, hannual⟩
    · exact hc ▸ ⟨_, hpb⟩
  · rintro (hc | hc) hok
    · subst hc
      exact ⟨_, monthly_case ref hy1 hy2 hm1 hm2
        (fun ⟨ha, hb⟩ => hok ⟨ha, by omega⟩)⟩
    · subst hc
      exact ⟨_, quarterly_case ref hy1 hy2 hm1 hm2 hok⟩

/-- Witness for C4: the monthly cadence at 2025-03-10. -/
theorem c4_period_bounds_containment_witness :
    (∃ p, get_period_boundaries "monthly" todayTest none none 4 none = .ok p) ∧
    dateLe ⟨2025, 3, 1⟩ todayTest = true ∧ dateLe todayTest ⟨2025, 3, 31⟩ = true := by
  have h := c4_period_bounds_containment "monthly" todayTest (by decide)
  refine ⟨h.2.2 (Or.inl rfl) (by decide), ?_⟩
  have hb := h.1 ⟨2025, 3, 1⟩ ⟨2025, 3, 31⟩ rfl
  exact hb
